import Mathlib

/-!
Verification of the version-gated settings-migration engine of this
repository (src/src/extension.ts) against its natural-language
specification.

The configuration values, migration rules, batch registry and the
startup sequence are embedded shallowly below.  The helpers that the
source imports from modules not provided here (the `Versions` module and
`configuration.migrate` / `configuration.migrateIfMissing`) are modelled
from the specification, as noted on their doc comments.
-/

/-- A configuration value, mirroring the JSON-like values the host
configuration store holds (booleans, strings, numbers, arrays, objects,
and the undefined value produced e.g. by the transform at
extension.ts:142). -/
inductive Value where
  | vBool (b : Bool)
  | vStr (s : String)
  | vNum (n : Int)
  | vList (l : List Value)
  | vObj (fields : List (String × Value))
  | vUndef

/-- JavaScript truthiness of a configuration value, used by the
conditional transforms in extension.ts (lines 119, 126, 141). -/
def truthy : Value → Bool
  | .vBool b => b
  | .vStr s => s ≠ ""
  | .vNum n => n ≠ 0
  | .vList _ => true
  | .vObj _ => true
  | .vUndef => false

/-- Replace the first occurrence of the string "overviewRuler" by
"overview" in a list, as `v.splice(v.indexOf('overviewRuler'), 1,
'overview')` does in extension.ts lines 149-153 and 160-164
(`indexOf` finds the first strictly-equal element, `splice` replaces
just that one element). -/
def renameFirst : List Value → List Value
  | [] => []
  | x :: xs =>
    match x with
    | .vStr s =>
      if s = "overviewRuler" then Value.vStr "overview" :: xs
      else Value.vStr s :: renameFirst xs
    | y => y :: renameFirst xs

namespace Versions

/-- Modelled from the spec: the source imports `Versions` from
`./system`, which is not among the provided files.  Per spec section 3,
a SemVer value has numeric major/minor/patch fields and an optional
pre-release tag (absence is distinct from the empty tag). -/
structure Version where
  major : Nat
  minor : Nat
  patch : Nat
  pre : Option String
deriving DecidableEq

/-- Modelled from the spec: direct field construction
(`Versions.from(7, 5, 10)` etc. in the source). -/
def from' (major minor patch : Nat) (pre : Option String) : Version :=
  ⟨major, minor, patch, pre⟩

/-- Split a character list at every occurrence of `c`. -/
def splitOnChar (c : Char) : List Char → List (List Char)
  | [] => [[]]
  | x :: xs =>
    match splitOnChar c xs with
    | [] => if x = c then [[], []] else [[x]]
    | y :: ys => if x = c then [] :: y :: ys else (x :: y) :: ys

/-- Parse a non-empty all-digit character list as a natural number. -/
def digitsToNat : List Char → Option Nat
  | [] => none
  | l => go l 0
where
  go : List Char → Nat → Option Nat
    | [], acc => some acc
    | c :: cs, acc =>
      if c.isDigit then go cs (acc * 10 + (c.toNat - '0'.toNat)) else none

/-- Modelled from the spec: `Versions.fromString` is not among the
provided files.  Per spec section 4.1, parsing accepts
`major.minor.patch` with an optional trailing pre-release suffix
separated by a dash, and fails on unparsable input. -/
def fromString (s : String) : Except Unit Version :=
  match splitOnChar '-' s.toList with
  | [] => .error ()
  | core :: rest =>
    let pre : Option String :=
      if rest.isEmpty then none else some (String.mk (List.intercalate ['-'] rest))
    match splitOnChar '.' core with
    | [a, b, c] =>
      match digitsToNat a, digitsToNat b, digitsToNat c with
      | some ma, some mi, some pa => .ok ⟨ma, mi, pa, pre⟩
      | _, _, _ => .error ()
    | _ => .error ()

/-- Strict lexicographic order on character lists (by code point). -/
def ltCharList : List Char → List Char → Bool
  | [], [] => false
  | [], _ :: _ => true
  | _ :: _, [] => false
  | a :: as, b :: bs => if a < b then true else if b < a then false else ltCharList as bs

/-- Modelled from the spec (section 4.1): when numeric fields agree, a
version with a pre-release tag is ordered before the version without
one, and two pre-release tags compare lexically. -/
def comparePre : Option String → Option String → Int
  | none, none => 0
  | some _, none => -1
  | none, some _ => 1
  | some p, some q =>
    if p = q then 0 else if ltCharList p.toList q.toList then -1 else 1

/-- Modelled from the spec: `Versions.compare` is not among the provided
files.  Per spec section 4.1 it returns -1, 0 or 1, ordering first by
major, then minor, then patch, then by the pre-release rule. -/
def compare (a b : Version) : Int :=
  if a.major < b.major then -1
  else if b.major < a.major then 1
  else if a.minor < b.minor then -1
  else if b.minor < a.minor then 1
  else if a.patch < b.patch then -1
  else if b.patch < a.patch then 1
  else comparePre a.pre b.pre

end Versions

/-- The layered configuration document, restricted to the explicitly
set values: an association list from dotted key paths to values.  A key
absent from the list is not explicitly set and falls back to its schema
default (spec section 4.2). -/
abbrev Store := List (String × Value)

/-- The explicitly set value at a key, if any (spec section 4.2,
`has(path)` is `(find k s).isSome`). -/
def Store.find (k : String) : Store → Option Value
  | [] => none
  | (k2, v) :: rest => if k = k2 then some v else Store.find k rest

/-- Write a value at a key (spec section 4.2, `set`): replaces the
first binding of the key in place, or appends a new binding. -/
def Store.set (k : String) (v : Value) : Store → Store
  | [] => [(k, v)]
  | (k2, w) :: rest => if k2 = k then (k, v) :: rest else (k2, w) :: Store.set k v rest

/-- Read-through lookup: the explicitly set value if present, else the
schema default `d k` (spec section 4.2, `get`). -/
def Store.get (d : String → Value) (k : String) (s : Store) : Value :=
  (Store.find k s).getD (d k)

/-- The value transforms occurring in the source's migration calls,
reified so rules are plain data. -/
inductive Transform where
  | ident
  | perLanguage
  | boolToOverLine
  | debugToOutputLevel
  | toUndef
  | renameOverviewRuler
  | keymapStandardToAlternate
deriving DecidableEq

/-- Overwrite (`configuration.migrate`) versus non-destructive backfill
(`configuration.migrateIfMissing`). -/
inductive Mode where
  | overwrite
  | ifMissing
deriving DecidableEq

/-- One declarative migration rule (spec section 3): source key,
destination key, optional transform, mode, optional fallback value. -/
structure Rule where
  src : String
  dst : String
  transform : Transform
  mode : Mode
  fallback : Option Value

/-- JavaScript property access `v[k]` as used inside the codeLens
per-language transform (extension.ts lines 98-103): objects yield the
field or undefined, undefined cannot be dereferenced, other primitives
yield undefined. -/
def getProp (v : Value) (k : String) : Except Unit Value :=
  match v with
  | .vObj fs => .ok (((fs.find? (fun p => p.1 == k)).map Prod.snd).getD Value.vUndef)
  | .vUndef => .error ()
  | _ => .ok Value.vUndef

/-- The element reshaping of the codeLens per-language transform
(extension.ts lines 98-104): `{language: ls.language, scopes:
ls.locations, symbolScopes: ls.customSymbols}`. -/
def reshape (ls : Value) : Except Unit Value := do
  let lang ← getProp ls "language"
  let locs ← getProp ls "locations"
  let syms ← getProp ls "customSymbols"
  pure (Value.vObj [("language", lang), ("scopes", locs), ("symbolScopes", syms)])

/-- Evaluate a reified transform on the source value and the current
read-through value of the destination key.  Transforms that call `.map`
or `.indexOf` on a non-array value fail, mirroring the JavaScript
exceptions the spec's rule-execution contract isolates. -/
def applyTransform (t : Transform) (v : Value) (dstCur : Value) : Except Unit Value :=
  match t with
  | .ident => .ok v
  | .perLanguage =>
    match v with
    | .vList l => (l.mapM reshape).map Value.vList
    | _ => .error ()
  | .boolToOverLine => .ok (.vStr (if truthy v then "line" else "annotation"))
  | .debugToOutputLevel => .ok (if truthy v then .vStr "debug" else dstCur)
  | .toUndef => .ok .vUndef
  | .renameOverviewRuler =>
    match v with
    | .vList l => .ok (.vList (renameFirst l))
    | _ => .error ()
  | .keymapStandardToAlternate =>
    match v with
    | .vStr s => .ok (if s = "standard" then .vStr "alternate" else .vStr s)
    | _ => .ok v

/-- Modelled from the spec: `configuration.migrate` and
`configuration.migrateIfMissing` live in `./configuration`, which is not
among the provided files.  Execution of one rule follows spec section
4.3: an OnlyIfDestinationUnset rule skips when the destination is
explicitly set; an absent source applies the fallback (if any) and
otherwise skips; a transform failure applies the fallback (if any) and
otherwise skips; a successful value is written to the destination; the
source key is never touched. -/
def executeRule (d : String → Value) (r : Rule) (s : Store) : Store :=
  if r.mode = Mode.ifMissing ∧ (Store.find r.dst s).isSome then s
  else
    match Store.find r.src s with
    | none =>
      match r.fallback with
      | some fb => Store.set r.dst fb s
      | none => s
    | some v =>
      match applyTransform r.transform v ((Store.find r.dst s).getD (d r.dst)) with
      | .ok w => Store.set r.dst w s
      | .error _ =>
        match r.fallback with
        | some fb => Store.set r.dst fb s
        | none => s

/-- Execute the rules of one batch in order. -/
def runRules (d : String → Value) (rules : List Rule) (s : Store) : Store :=
  rules.foldl (fun t r => executeRule d r t) s

/-- The rules of the 7.5.10 migration batch (extension.ts lines 83-136),
all in overwrite mode (`configuration.migrate`). -/
def rules_7_5_10 : List Rule :=
  [ ⟨"annotations.file.gutter.gravatars", "blame.avatars", .ident, .overwrite, none⟩,
    ⟨"annotations.file.gutter.compact", "blame.compact", .ident, .overwrite, none⟩,
    ⟨"annotations.file.gutter.dateFormat", "blame.dateFormat", .ident, .overwrite, none⟩,
    ⟨"annotations.file.gutter.format", "blame.format", .ident, .overwrite, none⟩,
    ⟨"annotations.file.gutter.heatmap.enabled", "blame.heatmap.enabled", .ident, .overwrite, none⟩,
    ⟨"annotations.file.gutter.heatmap.location", "blame.heatmap.location", .ident, .overwrite, none⟩,
    ⟨"annotations.file.gutter.lineHighlight.enabled", "blame.highlight.enabled", .ident, .overwrite, none⟩,
    ⟨"annotations.file.gutter.lineHighlight.locations", "blame.highlight.locations", .ident, .overwrite, none⟩,
    ⟨"annotations.file.gutter.separateLines", "blame.separateLines", .ident, .overwrite, none⟩,
    ⟨"codeLens.locations", "codeLens.scopes", .ident, .overwrite, none⟩,
    ⟨"codeLens.perLanguageLocations", "codeLens.scopesByLanguage", .perLanguage, .overwrite, none⟩,
    ⟨"codeLens.customLocationSymbols", "codeLens.symbolScopes", .ident, .overwrite, none⟩,
    ⟨"annotations.line.trailing.dateFormat", "currentLine.dateFormat", .ident, .overwrite, none⟩,
    ⟨"blame.line.enabled", "currentLine.enabled", .ident, .overwrite, none⟩,
    ⟨"annotations.line.trailing.format", "currentLine.format", .ident, .overwrite, none⟩,
    ⟨"annotations.file.gutter.hover.changes", "hovers.annotations.changes", .ident, .overwrite, none⟩,
    ⟨"annotations.file.gutter.hover.details", "hovers.annotations.details", .ident, .overwrite, none⟩,
    ⟨"annotations.file.gutter.hover.details", "hovers.annotations.enabled", .ident, .overwrite, none⟩,
    ⟨"annotations.file.gutter.hover.wholeLine", "hovers.annotations.over", .boolToOverLine, .overwrite, none⟩,
    ⟨"annotations.line.trailing.hover.changes", "hovers.currentLine.changes", .ident, .overwrite, none⟩,
    ⟨"annotations.line.trailing.hover.details", "hovers.currentLine.details", .ident, .overwrite, none⟩,
    ⟨"blame.line.enabled", "hovers.currentLine.enabled", .ident, .overwrite, none⟩,
    ⟨"annotations.line.trailing.hover.wholeLine", "hovers.currentLine.over", .boolToOverLine, .overwrite, none⟩,
    ⟨"gitExplorer.gravatars", "explorers.avatars", .ident, .overwrite, none⟩,
    ⟨"gitExplorer.commitFileFormat", "explorers.commitFileFormat", .ident, .overwrite, none⟩,
    ⟨"gitExplorer.commitFormat", "explorers.commitFormat", .ident, .overwrite, none⟩,
    ⟨"gitExplorer.stashFileFormat", "explorers.stashFileFormat", .ident, .overwrite, none⟩,
    ⟨"gitExplorer.stashFormat", "explorers.stashFormat", .ident, .overwrite, none⟩,
    ⟨"gitExplorer.statusFileFormat", "explorers.statusFileFormat", .ident, .overwrite, none⟩,
    ⟨"recentChanges.file.lineHighlight.locations", "recentChanges.highlight.locations", .ident, .overwrite, none⟩ ]

/-- The boolean-to-enum rule of the 8.0.0-beta2 batch (extension.ts
lines 139-141): the legacy boolean `debug` key feeds `outputLevel`; true
gives the debug level, false reads through whatever `outputLevel`
currently holds. -/
def debugOutputLevelRule : Rule :=
  ⟨"debug", "outputLevel", .debugToOutputLevel, .overwrite, none⟩

/-- The second rule of the 8.0.0-beta2 batch (extension.ts line 142):
`debug` migrated onto itself with a transform returning undefined. -/
def debugClearRule : Rule :=
  ⟨"debug", "debug", .toUndef, .overwrite, none⟩

/-- The rules of the 8.0.0-beta2 batch (extension.ts lines 138-143). -/
def rules_8_0_0_beta2 : List Rule :=
  [debugOutputLevelRule, debugClearRule]

/-- The rules of the 8.0.0-rc batch (extension.ts lines 145-167): rename
the `overviewRuler` member inside the two highlight-locations arrays, in
place. -/
def rules_8_0_0_rc : List Rule :=
  [ ⟨"blame.highlight.locations", "blame.highlight.locations", .renameOverviewRuler, .overwrite, none⟩,
    ⟨"recentChanges.highlight.locations", "recentChanges.highlight.locations", .renameOverviewRuler, .overwrite, none⟩ ]

/-- The rules of the 8.0.0 batch (extension.ts lines 169-222): the same
thirty source/destination pairs as the 7.5.10 batch, but in
non-destructive backfill mode (`configuration.migrateIfMissing`). -/
def rules_8_0_0 : List Rule :=
  [ ⟨"annotations.file.gutter.gravatars", "blame.avatars", .ident, .ifMissing, none⟩,
    ⟨"annotations.file.gutter.compact", "blame.compact", .ident, .ifMissing, none⟩,
    ⟨"annotations.file.gutter.dateFormat", "blame.dateFormat", .ident, .ifMissing, none⟩,
    ⟨"annotations.file.gutter.format", "blame.format", .ident, .ifMissing, none⟩,
    ⟨"annotations.file.gutter.heatmap.enabled", "blame.heatmap.enabled", .ident, .ifMissing, none⟩,
    ⟨"annotations.file.gutter.heatmap.location", "blame.heatmap.location", .ident, .ifMissing, none⟩,
    ⟨"annotations.file.gutter.lineHighlight.enabled", "blame.highlight.enabled", .ident, .ifMissing, none⟩,
    ⟨"annotations.file.gutter.lineHighlight.locations", "blame.highlight.locations", .ident, .ifMissing, none⟩,
    ⟨"annotations.file.gutter.separateLines", "blame.separateLines", .ident, .ifMissing, none⟩,
    ⟨"codeLens.locations", "codeLens.scopes", .ident, .ifMissing, none⟩,
    ⟨"codeLens.perLanguageLocations", "codeLens.scopesByLanguage", .perLanguage, .ifMissing, none⟩,
    ⟨"codeLens.customLocationSymbols", "codeLens.symbolScopes", .ident, .ifMissing, none⟩,
    ⟨"annotations.line.trailing.dateFormat", "currentLine.dateFormat", .ident, .ifMissing, none⟩,
    ⟨"blame.line.enabled", "currentLine.enabled", .ident, .ifMissing, none⟩,
    ⟨"annotations.line.trailing.format", "currentLine.format", .ident, .ifMissing, none⟩,
    ⟨"annotations.file.gutter.hover.changes", "hovers.annotations.changes", .ident, .ifMissing, none⟩,
    ⟨"annotations.file.gutter.hover.details", "hovers.annotations.details", .ident, .ifMissing, none⟩,
    ⟨"annotations.file.gutter.hover.details", "hovers.annotations.enabled", .ident, .ifMissing, none⟩,
    ⟨"annotations.file.gutter.hover.wholeLine", "hovers.annotations.over", .boolToOverLine, .ifMissing, none⟩,
    ⟨"annotations.line.trailing.hover.changes", "hovers.currentLine.changes", .ident, .ifMissing, none⟩,
    ⟨"annotations.line.trailing.hover.details", "hovers.currentLine.details", .ident, .ifMissing, none⟩,
    ⟨"blame.line.enabled", "hovers.currentLine.enabled", .ident, .ifMissing, none⟩,
    ⟨"annotations.line.trailing.hover.wholeLine", "hovers.currentLine.over", .boolToOverLine, .ifMissing, none⟩,
    ⟨"gitExplorer.gravatars", "explorers.avatars", .ident, .ifMissing, none⟩,
    ⟨"gitExplorer.commitFileFormat", "explorers.commitFileFormat", .ident, .ifMissing, none⟩,
    ⟨"gitExplorer.commitFormat", "explorers.commitFormat", .ident, .ifMissing, none⟩,
    ⟨"gitExplorer.stashFileFormat", "explorers.stashFileFormat", .ident, .ifMissing, none⟩,
    ⟨"gitExplorer.stashFormat", "explorers.stashFormat", .ident, .ifMissing, none⟩,
    ⟨"gitExplorer.statusFileFormat", "explorers.statusFileFormat", .ident, .ifMissing, none⟩,
    ⟨"recentChanges.file.lineHighlight.locations", "recentChanges.highlight.locations", .ident, .ifMissing, none⟩ ]

/-- The rules of the 8.0.2 batch (extension.ts lines 224-230): `keymap`
migrated onto itself, mapping the value `standard` to the alternate
keymap, with the alternate keymap as fallback value. -/
def rules_8_0_2 : List Rule :=
  [ ⟨"keymap", "keymap", .keymapStandardToAlternate, .overwrite, some (Value.vStr "alternate")⟩ ]

/-- A version-gated batch of migration rules (spec section 3). -/
structure Batch where
  threshold : Versions.Version
  rules : List Rule

def v7_5_10 : Versions.Version := Versions.from' 7 5 10 none
def v8_0_0_beta2 : Versions.Version := Versions.from' 8 0 0 (some "beta2")
def v8_0_0_rc : Versions.Version := Versions.from' 8 0 0 (some "rc")
def v8_0_0 : Versions.Version := Versions.from' 8 0 0 none
def v8_0_2 : Versions.Version := Versions.from' 8 0 2 none

/-- The migration-batch registry, in the order the source checks the
thresholds (extension.ts lines 83, 138, 145, 169, 224). -/
def batches : List Batch :=
  [ ⟨v7_5_10, rules_7_5_10⟩,
    ⟨v8_0_0_beta2, rules_8_0_0_beta2⟩,
    ⟨v8_0_0_rc, rules_8_0_0_rc⟩,
    ⟨v8_0_0, rules_8_0_0⟩,
    ⟨v8_0_2, rules_8_0_2⟩ ]

/-- The source's batch gate: `Versions.compare(previous, threshold) !== 1`
(extension.ts lines 83, 138, 145, 169, 224). -/
def applicable (prev threshold : Versions.Version) : Bool :=
  Versions.compare prev threshold != 1

/-- Walk the batch registry in order, executing the rules of every
applicable batch (the body of the try block of `migrateSettings`,
extension.ts lines 82-231). -/
def runBatches (d : String → Value) (prev : Versions.Version) (s : Store) : Store :=
  batches.foldl (fun t b => if applicable prev b.threshold then runRules d b.rules t else t) s

/-- Same walk as `runBatches`, additionally recording the sequence of
rules that get executed, to make "which rules ran" observable. -/
def runBatchesTraced (d : String → Value) (prev : Versions.Version) (s : Store) :
    Store × List Rule :=
  batches.foldl
    (fun p b => if applicable prev b.threshold then (runRules d b.rules p.1, p.2 ++ b.rules) else p)
    (s, [])

/-- The rules of all applicable batches, in registry order.  This
depends only on the previous version, not on the configuration store. -/
def appliedRules (prev : Versions.Version) : List Rule :=
  (batches.filter (fun b => applicable prev b.threshold)).flatMap (fun b => b.rules)

/-- The migration engine entry point `migrateSettings` (extension.ts
lines 77-235): an undefined previous version returns immediately; the
previous-version string is parsed at line 80, before the try block, so a
parse failure propagates to the caller; the batch walk happens inside
the try block, whose failures are caught and logged at lines 232-234
(under the rule-execution model of `executeRule`, nothing inside the
walk fails, so the catch never fires). -/
def migrateSettings (d : String → Value) (previousVersion : Option String) (s : Store) :
    Except Unit Store :=
  match previousVersion with
  | none => .ok s
  | some str =>
    match Versions.fromString str with
    | .error e => .error e
    | .ok prev => .ok (runBatches d prev s)

/-- `migrateSettings` with the executed-rule trace of
`runBatchesTraced`. -/
def migrateSettingsTraced (d : String → Value) (previousVersion : Option String) (s : Store) :
    Except Unit (Store × List Rule) :=
  match previousVersion with
  | none => .ok (s, [])
  | some str =>
    match Versions.fromString str with
    | .error e => .error e
    | .ok prev => .ok (runBatchesTraced d prev s)

/-- The externally observable outcome of one activation: the
configuration document, the persisted version marker after startup, the
value (if any) the host-visible enabled flag was set to, and the error
log. -/
structure ActivateResult where
  store : Store
  marker : Option String
  flagSetTo : Option Bool
  log : List String

/-- The startup hook `activate` (extension.ts lines 14-72), restricted
to the state the claims mention.  When the `git.enabled` host setting is
false, everything including migration is skipped and the enabled flag is
set to false (lines 22-28).  Then `migrateSettings` is awaited with no
surrounding catch (line 33), so its failure is the failure of `activate`
itself.  A git-initialization failure logs, sets the enabled flag to
false and returns before the marker update (lines 37-47).  Otherwise the
current version is written as the new marker (line 65). -/
def activate (d : String → Value) (gitEnabled : Bool) (previousVersion : Option String)
    (currentVersion : String) (gitInitOk : Bool) (s : Store) : Except Unit ActivateResult :=
  if !gitEnabled then
    .ok ⟨s, previousVersion, some false, ["GitLens was NOT activated"]⟩
  else
    match migrateSettings d previousVersion s with
    | .error e => .error e
    | .ok s2 =>
      if !gitInitOk then
        .ok ⟨s2, previousVersion, some false, ["GitService.initialize failed"]⟩
      else
        .ok ⟨s2, some currentVersion, none, []⟩

set_option maxRecDepth 100000

/-- A default-value assignment for the tests below: every key defaults
to the undefined value. -/
def defaults0 : String → Value := fun _ => Value.vUndef

def ver7_5_9 : Versions.Version := ⟨7, 5, 9, none⟩

def ver8_0_0_beta1 : Versions.Version := ⟨8, 0, 0, some "beta1"⟩

/-- The legacy configuration of the spec's concrete scenario: only
`blame.line.enabled` is explicitly set, to true. -/
def legacyLineStore : Store := [("blame.line.enabled", Value.vBool true)]

/-- A configuration on which the codeLens per-language transform throws
(its value is not an array), while an unrelated later rule has a source
value to migrate. -/
def failingTransformStore : Store :=
  [("codeLens.perLanguageLocations", Value.vBool true),
   ("gitExplorer.gravatars", Value.vStr "x")]

def debugTrueStore : Store :=
  [("debug", Value.vBool true), ("outputLevel", Value.vStr "verbose")]

def debugFalseStore : Store :=
  [("debug", Value.vBool false), ("outputLevel", Value.vStr "verbose")]

/-- A configuration whose legacy line-highlight locations contain the
`overviewRuler` member. -/
def overviewRulerStore : Store :=
  [("annotations.file.gutter.lineHighlight.locations",
    Value.vList [Value.vStr "overviewRuler"])]

/-- Observer distinguishing a list value headed by "overview" from
anything else. -/
def overviewHead : Option Value → Bool
  | some (.vList (.vStr s :: _)) => s = "overview"
  | _ => false

theorem Store.find_set_self (k : String) (v : Value) (s : Store) :
    Store.find k (Store.set k v s) = some v := by
  induction s with
  | nil => simp [Store.set, Store.find]
  | cons p rest ih =>
    obtain ⟨k2, w⟩ := p
    by_cases h : k2 = k
    · simp [Store.set, Store.find, h]
    · have h2 : ¬k = k2 := fun e => h e.symm
      simp [Store.set, Store.find, h, h2, ih]

theorem Store.find_set_ne {q k : String} (h : q ≠ k) (v : Value) (s : Store) :
    Store.find q (Store.set k v s) = Store.find q s := by
  induction s with
  | nil => simp [Store.set, Store.find, h]
  | cons p rest ih =>
    obtain ⟨k2, w⟩ := p
    by_cases h2 : k2 = k
    · subst h2
      simp [Store.set, Store.find, h]
    · simp [Store.set, Store.find, h2, ih]

theorem Store.find_isSome_set (q k : String) (v : Value) (s : Store)
    (h : (Store.find q s).isSome = true) :
    (Store.find q (Store.set k v s)).isSome = true := by
  by_cases e : q = k
  · subst e
    simp [Store.find_set_self]
  · rw [Store.find_set_ne e]
    exact h

/-- A single rule execution never removes an explicitly set key: it
either leaves the store alone or writes one key. -/
theorem executeRule_keeps (d : String → Value) (r : Rule) (s : Store) (q : String)
    (h : (Store.find q s).isSome = true) :
    (Store.find q (executeRule d r s)).isSome = true := by
  unfold executeRule
  repeat' split
  all_goals first
    | exact h
    | exact Store.find_isSome_set q r.dst _ s h

theorem runRules_keeps (d : String → Value) (rules : List Rule) :
    ∀ (s : Store) (q : String), (Store.find q s).isSome = true →
      (Store.find q (runRules d rules s)).isSome = true := by
  induction rules with
  | nil => intro s q h; simpa [runRules] using h
  | cons r rest ih =>
    intro s q h
    have : runRules d (r :: rest) s = runRules d rest (executeRule d r s) := by
      simp [runRules]
    rw [this]
    exact ih _ _ (executeRule_keeps d r s q h)

theorem runBatches_keeps (d : String → Value) (v : Versions.Version) (s : Store) (q : String)
    (h : (Store.find q s).isSome = true) :
    (Store.find q (runBatches d v s)).isSome = true := by
  have aux : ∀ (bs : List Batch) (s : Store),
      (Store.find q s).isSome = true →
      (Store.find q
        (bs.foldl (fun t b => if applicable v b.threshold then runRules d b.rules t else t) s)).isSome
          = true := by
    intro bs
    induction bs with
    | nil => intro s h; simpa using h
    | cons b bs ih =>
      intro s h
      rw [List.foldl_cons]
      by_cases e : applicable v b.threshold = true
      · rw [if_pos e]
        exact ih _ (runRules_keeps d b.rules s q h)
      · rw [if_neg e]
        exact ih _ h
  exact aux batches s h

/-- The traced batch walk computes the same store as the plain walk and
records exactly the rules of the applicable batches, in registry
order. -/
theorem runBatchesTraced_eq (d : String → Value) (v : Versions.Version) (s : Store) :
    runBatchesTraced d v s = (runBatches d v s, appliedRules v) := by
  have aux : ∀ (bs : List Batch) (s : Store) (acc : List Rule),
      bs.foldl
        (fun p b => if applicable v b.threshold then (runRules d b.rules p.1, p.2 ++ b.rules) else p)
        (s, acc)
      = (bs.foldl (fun t b => if applicable v b.threshold then runRules d b.rules t else t) s,
         acc ++ (bs.filter (fun b => applicable v b.threshold)).flatMap (fun b => b.rules)) := by
    intro bs
    induction bs with
    | nil => intro s acc; simp
    | cons b bs ih =>
      intro s acc
      by_cases e : applicable v b.threshold = true
      · simp [e, ih, List.filter_cons]
      · simp [e, ih, List.filter_cons]
  simpa [runBatchesTraced, runBatches, appliedRules] using aux batches s []

theorem comparePre_tri (a b : Option String) :
    Versions.comparePre a b = -1 ∨ Versions.comparePre a b = 0 ∨ Versions.comparePre a b = 1 := by
  cases a <;> cases b <;> simp only [Versions.comparePre] <;> try split_ifs
  all_goals simp

theorem compare_tri (a b : Versions.Version) :
    Versions.compare a b = -1 ∨ Versions.compare a b = 0 ∨ Versions.compare a b = 1 := by
  unfold Versions.compare
  split_ifs <;> first
    | simp
    | exact comparePre_tri a.pre b.pre

/-- The source's batch gate `compare(previous, threshold) !== 1` is the
same test as `compare(previous, threshold) <= 0`. -/
theorem applicable_eq_decide (v t : Versions.Version) :
    applicable v t = decide (Versions.compare v t ≤ 0) := by
  rcases compare_tri v t with h | h | h <;> unfold applicable <;> rw [h] <;> decide

/-- Claim C1: for every previous-version input and configuration state,
a throwing transform does not prevent subsequent rules from being
executed, and the migration run completes without raising.  Under the
spec's rule-execution contract (section 4.3, modelled in `executeRule`),
a transform failure is contained inside the rule, so the run returns a
store for every parsable previous version, and the sequence of executed
rules is exactly the rules of the applicable batches — an expression
that does not depend on the configuration store, hence not on any
earlier rule's failure. -/
theorem spec_C1 : ∀ (d : String → Value) (s : Store) (str : String) (v : Versions.Version),
    Versions.fromString str = .ok v →
    migrateSettings d (some str) s = .ok (runBatches d v s) ∧
    migrateSettingsTraced d (some str) s = .ok (runBatchesTraced d v s) ∧
    (runBatchesTraced d v s).2 = appliedRules v := by
  intro d s str v h
  refine ⟨?_, ?_, ?_⟩
  · simp [migrateSettings, h]
  · simp [migrateSettingsTraced, h]
  · rw [runBatchesTraced_eq]

/-- Claim C1 witness: on a store where the codeLens per-language
transform throws (value is a boolean, not an array), the run still
completes and the unrelated later gitExplorer rule still migrates its
value. -/
theorem spec_C1_witness :
    (migrateSettings defaults0 (some "7.5.9") failingTransformStore
        = .ok (runBatches defaults0 ver7_5_9 failingTransformStore) ∧
      migrateSettingsTraced defaults0 (some "7.5.9") failingTransformStore
        = .ok (runBatchesTraced defaults0 ver7_5_9 failingTransformStore) ∧
      (runBatchesTraced defaults0 ver7_5_9 failingTransformStore).2 = appliedRules ver7_5_9) ∧
    Store.find "explorers.avatars" (runBatches defaults0 ver7_5_9 failingTransformStore)
      = some (Value.vStr "x") :=
  ⟨spec_C1 defaults0 failingTransformStore "7.5.9" ver7_5_9 rfl, rfl⟩

/-- Claim C2 counterexample: with the malformed marker "x.y.z", the
parse error raised at extension.ts:80 — before the try block — escapes
`migrateSettings`, and `activate`, which awaits it without a catch at
line 33, fails as well: the exception does propagate into the host
startup sequence. -/
theorem spec_C2_counterexample :
    activate defaults0 true (some "x.y.z") "8.0.2" true [] = .error () := rfl

/-- Claim C2, amended: when parsing the persisted previous-version
string fails, the whole migration run is aborted, but the exception is
not caught one level up: the parse happens before the engine's try
block and the caller has no catch around the call, so the failure is
also the failure of the startup sequence. -/
theorem spec_C2 : ∀ (d : String → Value) (s : Store) (cv : String) (g : Bool)
    (str : String) (e : Unit),
    Versions.fromString str = .error e →
    migrateSettings d (some str) s = .error e ∧
    activate d true (some str) cv g s = .error e := by
  intro d s cv g str e h
  have h1 : migrateSettings d (some str) s = .error e := by simp [migrateSettings, h]
  exact ⟨h1, by simp [activate, h1]⟩

/-- Claim C2 witness: the malformed marker "oops" aborts both the run
and the startup sequence. -/
theorem spec_C2_witness :
    migrateSettings defaults0 (some "oops") [] = .error () ∧
    activate defaults0 true (some "oops") "8.0.2" true [] = .error () :=
  spec_C2 defaults0 [] "8.0.2" true "oops" () rfl

/-- Claim C3: every key explicitly set before a migration run — in
particular every rule's legacy source key — is still explicitly set
after the run: rule execution only ever writes destinations and never
unsets a key. -/
theorem spec_C3 : ∀ (d : String → Value) (v : Versions.Version) (s : Store) (k : String),
    (Store.find k s).isSome = true →
    (Store.find k (runBatches d v s)).isSome = true :=
  fun d v s k h => runBatches_keeps d v s k h

/-- Claim C3 witness: the legacy `blame.line.enabled` key is still
explicitly set after the full run from 7.5.9. -/
theorem spec_C3_witness :
    (Store.find "blame.line.enabled" legacyLineStore).isSome = true ∧
    (Store.find "blame.line.enabled" (runBatches defaults0 ver7_5_9 legacyLineStore)).isSome
      = true :=
  ⟨rfl, spec_C3 defaults0 ver7_5_9 legacyLineStore "blame.line.enabled" rfl⟩

/-- Claim C4 counterexample: with a malformed marker string, startup
aborts at the parse (extension.ts line 80 throws through line 33), so
the line-65 marker update is never reached — the current version is not
written, contradicting "written regardless ... including when the marker
version string is malformed". -/
theorem spec_C4_counterexample :
    activate defaults0 true (some "not-a-version") "8.0.2" true legacyLineStore
      = .error () := rfl

/-- Claim C4, amended: when the feature is enabled and the migration
call returns (which it does whenever the marker parses, regardless of
internal batch failures, which are caught and logged) and git
initialization succeeds, the current version is written as the new
marker.  When the marker string is malformed the startup aborts before
the write, and when git initialization fails the early return skips the
write. -/
theorem spec_C4 : ∀ (d : String → Value) (s s2 : Store) (pv : Option String) (cv : String),
    migrateSettings d pv s = .ok s2 →
    activate d true pv cv true s = .ok ⟨s2, some cv, none, []⟩ := by
  intro d s s2 pv cv h
  simp [activate, h]

/-- Claim C4 witness: a successful startup from 7.5.9 writes 8.0.2 as
the new marker. -/
theorem spec_C4_witness :
    activate defaults0 true (some "7.5.9") "8.0.2" true legacyLineStore =
      .ok ⟨runBatches defaults0 ver7_5_9 legacyLineStore, some "8.0.2", none, []⟩ :=
  spec_C4 defaults0 legacyLineStore (runBatches defaults0 ver7_5_9 legacyLineStore)
    (some "7.5.9") "8.0.2" rfl

/-- Claim C5: a batch's rules are executed exactly when
`compare(previousVersion, threshold) <= 0` (the source's `!== 1` test is
that same condition), and the registry holds the five thresholds 7.5.10,
8.0.0-beta2, 8.0.0-rc, 8.0.0, 8.0.2 in strictly ascending order, with
pre-release ordered before release. -/
theorem spec_C5 :
    (∀ v t, applicable v t = decide (Versions.compare v t ≤ 0)) ∧
    (∀ (d : String → Value) (v : Versions.Version) (s : Store),
      (runBatchesTraced d v s).2 = appliedRules v) ∧
    (∀ v, appliedRules v
        = (batches.filter (fun b => decide (Versions.compare v b.threshold ≤ 0))).flatMap
            (fun b => b.rules)) ∧
    batches.map (fun b => b.threshold) = [v7_5_10, v8_0_0_beta2, v8_0_0_rc, v8_0_0, v8_0_2] ∧
    Versions.compare v7_5_10 v8_0_0_beta2 = -1 ∧
    Versions.compare v8_0_0_beta2 v8_0_0_rc = -1 ∧
    Versions.compare v8_0_0_rc v8_0_0 = -1 ∧
    Versions.compare v8_0_0 v8_0_2 = -1 := by
  refine ⟨applicable_eq_decide, ?_, ?_, rfl, by decide, by decide, by decide, by decide⟩
  · intro d v s
    rw [runBatchesTraced_eq]
  · intro v
    unfold appliedRules
    have e : (fun b : Batch => applicable v b.threshold)
        = (fun b : Batch => decide (Versions.compare v b.threshold ≤ 0)) :=
      funext fun b => applicable_eq_decide v b.threshold
    rw [e]

/-- Claim C6: from previous version 7.5.9 with only the legacy
`blame.line.enabled` set to true, the single source fans out to both
`currentLine.enabled` and `hovers.currentLine.enabled`, and the legacy
key is left in place unchanged; from previous version 8.0.3 the run
leaves the configuration document untouched. -/
theorem spec_C6 :
    Except.map
        (fun t => (Store.find "currentLine.enabled" t,
                   Store.find "hovers.currentLine.enabled" t,
                   Store.find "blame.line.enabled" t))
        (migrateSettings defaults0 (some "7.5.9") legacyLineStore)
      = .ok (some (Value.vBool true), some (Value.vBool true), some (Value.vBool true)) ∧
    migrateSettings defaults0 (some "8.0.3") legacyLineStore = .ok legacyLineStore :=
  ⟨rfl, rfl⟩

/-- Claim C7: the boolean-to-enum rule for the legacy `debug` key — the
first rule of the 8.0.0-beta2 batch — sets the destination to the debug
output level when the legacy value is true, and to the read-through
value the `outputLevel` option currently holds (explicit value or
schema default) when the legacy value is false. -/
theorem spec_C7 : ∀ (d : String → Value) (s : Store),
    rules_8_0_0_beta2.head? = some debugOutputLevelRule ∧
    (Store.find "debug" s = some (Value.vBool true) →
      executeRule d debugOutputLevelRule s = Store.set "outputLevel" (Value.vStr "debug") s) ∧
    (Store.find "debug" s = some (Value.vBool false) →
      executeRule d debugOutputLevelRule s
        = Store.set "outputLevel" (Store.get d "outputLevel" s) s) := by
  intro d s
  refine ⟨rfl, fun h => ?_, fun h => ?_⟩
  · simp [executeRule, debugOutputLevelRule, h, applyTransform, truthy]
  · simp [executeRule, debugOutputLevelRule, h, applyTransform, truthy, Store.get]

/-- Claim C7 witness: with `debug` true the destination becomes the
debug level; with `debug` false and `outputLevel` configured as
"verbose", the destination becomes that currently configured value. -/
theorem spec_C7_witness :
    executeRule defaults0 debugOutputLevelRule debugTrueStore
        = Store.set "outputLevel" (Value.vStr "debug") debugTrueStore ∧
    executeRule defaults0 debugOutputLevelRule debugFalseStore
        = Store.set "outputLevel" (Store.get defaults0 "outputLevel" debugFalseStore)
            debugFalseStore :=
  ⟨(spec_C7 defaults0 debugTrueStore).2.1 rfl, (spec_C7 defaults0 debugFalseStore).2.2 rfl⟩

/-- Claim C8, evaluation at the failing input: from previous version
8.0.0-beta1 with the legacy line-highlight locations set to the
one-element list [overviewRuler] and `blame.highlight.locations` unset,
the first run backfills `blame.highlight.locations` with the un-renamed
legacy list (the 8.0.0-rc rename batch ran before the 8.0.0 backfill
batch wrote the key), and the second run then renames it to [overview]:
running the engine twice differs from running it once. -/
theorem spec_C8_eval :
    Versions.fromString "8.0.0-beta1" = .ok ver8_0_0_beta1 ∧
    Store.find "blame.highlight.locations" (runBatches defaults0 ver8_0_0_beta1 overviewRulerStore)
      = some (Value.vList [Value.vStr "overviewRuler"]) ∧
    Store.find "blame.highlight.locations"
        (runBatches defaults0 ver8_0_0_beta1
          (runBatches defaults0 ver8_0_0_beta1 overviewRulerStore))
      = some (Value.vList [Value.vStr "overview"]) ∧
    runBatches defaults0 ver8_0_0_beta1 (runBatches defaults0 ver8_0_0_beta1 overviewRulerStore)
      ≠ runBatches defaults0 ver8_0_0_beta1 overviewRulerStore := by
  refine ⟨rfl, rfl, rfl, fun h => ?_⟩
  exact Bool.noConfusion
    (congrArg (fun t => overviewHead (Store.find "blame.highlight.locations" t)) h)

/-- Claim C9: on a first-time install (no stored previous version) the
migration executes zero rules and performs zero configuration writes;
the only startup state change is recording the current version as the
new marker. -/
theorem spec_C9 :
    (∀ (d : String → Value) (s : Store), migrateSettingsTraced d none s = .ok (s, [])) ∧
    (∀ (d : String → Value) (s : Store), migrateSettings d none s = .ok s) ∧
    (∀ (d : String → Value) (cv : String) (s : Store),
      activate d true none cv true s = .ok ⟨s, some cv, none, []⟩) :=
  ⟨fun _ _ => rfl, fun _ _ => rfl, fun _ _ _ => rfl⟩

/-- Claim C10: when git initialization fails during activation, the
error is logged, the host-visible enabled flag is set to false, and
activate returns before the marker update: the configuration document
already holds the full migration result, but the persisted marker still
holds the old previous version, so the next launch will run the same
batches again. -/
theorem spec_C10 : ∀ (d : String → Value) (s : Store) (str cv : String)
    (v : Versions.Version),
    Versions.fromString str = .ok v →
    activate d true (some str) cv false s =
      .ok ⟨runBatches d v s, some str, some false, ["GitService.initialize failed"]⟩ := by
  intro d s str cv v h
  simp [activate, migrateSettings, h]

/-- Claim C10 witness: a git-discovery failure after migrating from
7.5.9 leaves the marker at 7.5.9 with the store migrated and the flag
disabled. -/
theorem spec_C10_witness :
    activate defaults0 true (some "7.5.9") "8.0.2" false legacyLineStore =
      .ok ⟨runBatches defaults0 ver7_5_9 legacyLineStore, some "7.5.9", some false,
           ["GitService.initialize failed"]⟩ :=
  spec_C10 defaults0 legacyLineStore "7.5.9" "8.0.2" ver7_5_9 rfl
